import Mathlib

/-!
Shallow embedding of the scan-orchestration logic of cme/crackmapexec.py:
the per-job coroutine run_protocol, the pool driver start_threadpool, the
progress monitor monitor_threadpool, and the module/server/port selection
phases of main.  Pure control flow is embedded as Lean functions; the
lifecycle side effects of a run are embedded as an event trace.
-/

namespace CME

/-! ## Job-level model: run_protocol (lines 79-107) -/

/-- Python range(lo, hi) as the list of integers lo, lo+1, ..., hi-1
(empty whenever hi ≤ lo). -/
def py_range (lo hi : Int) : List Int :=
  (List.range (hi - lo).toNat).map (fun n : Nat => lo + (n : Int))

/-- Python random.choice(seq): picks seq[k] for an index k below the length
determined by the random source; an empty sequence raises IndexError,
embedded as none.  The seed abstracts the random source, reduced modulo the
length so every seed denotes a valid draw on a non-empty sequence. -/
def random_choice (seq : List Int) (seed : Nat) : Option Int :=
  seq.get? (seed % seq.length)

/-- The pre-dispatch delay run_protocol sleeps before submitting the job
(lines 81-84): with a jitter pair it is random.choice(range(lo, hi)); the
falsiness test `if jitter` only skips the draw when jitter is None, so any
pair, (0, 0) included, reaches the draw.  none encodes an uncaught
exception in place of a sleep. -/
def jitter_delay (jitter : Option (Int × Int)) (seed : Nat) : Option Int :=
  match jitter with
  | none => some 0
  | some w => random_choice (py_range w.1 w.2) seed

/-- Result of one run_protocol invocation, one constructor per exit path of
its try/except block: normal return, the three except clauses, and the two
uncaught exceptions that can escape (IndexError from an empty jitter range,
UnboundLocalError — a NameError — from the cancellation handler). -/
inductive JobResult
  | success
  | timeoutLogged
  | cancelledHandled
  | sqliteLogged
  | nameError
  | indexError
deriving DecidableEq, Repr

/-- Where, if anywhere, a CancelledError is delivered to run_protocol: at
the jitter sleep (the only suspension point before the worker future is
created), at the await on the worker future, or not at all. -/
inductive CancelPoint
  | duringJitter
  | duringAwait
  | never
deriving DecidableEq, Repr

/-- What one run_protocol call did: its result and whether the protocol
entry point was ever submitted to the executor. -/
structure JobTrace where
  result : JobResult
  invoked : Bool
deriving DecidableEq, Repr

/-- The `except asyncio.CancelledError` clause of run_protocol (lines
103-105): it evaluates `thread.cancel()`.  The local `thread` is only bound
once `loop.run_in_executor` has run; referencing it earlier raises
UnboundLocalError, so the handler is a function of the optional binding. -/
def cancelled_handler (thread : Option Unit) : JobResult :=
  match thread with
  | some _ => JobResult.cancelledHandled
  | none => JobResult.nameError

/-- run_protocol after the jitter phase: `thread` is bound by
run_in_executor (so the entry point is submitted), then asyncio.wait_for
bounds the wait by args.timeout.  runtime is the entry point's natural
running time; timeout < runtime triggers the TimeoutError clause. -/
def run_protocol_body (cancel : CancelPoint) (runtime timeout : Nat) : JobTrace :=
  if cancel = CancelPoint.duringAwait then
    { result := cancelled_handler (some ()), invoked := true }
  else if timeout < runtime then
    { result := JobResult.timeoutLogged, invoked := true }
  else
    { result := JobResult.success, invoked := true }

/-- The whole of run_protocol (lines 79-107).  With a jitter pair the draw
happens first: an empty range raises IndexError, caught by no except clause,
before any sleep.  A CancelledError delivered during the jitter sleep runs
the cancellation handler with `thread` still unbound.  Without jitter there
is no suspension point before the worker future exists, so a duringJitter
cancellation cannot occur and the body runs directly. -/
def run_protocol (jitter : Option (Int × Int)) (seed : Nat) (cancel : CancelPoint)
    (runtime timeout : Nat) : JobTrace :=
  match jitter with
  | some w =>
    match random_choice (py_range w.1 w.2) seed with
    | none => { result := JobResult.indexError, invoked := false }
    | some _ =>
      if cancel = CancelPoint.duringJitter then
        { result := cancelled_handler none, invoked := false }
      else
        run_protocol_body cancel runtime timeout
  | none => run_protocol_body cancel runtime timeout

/-- Python str.lower() over the characters of the string; CLI module and
jitter strings are ASCII, where Char.toLower agrees with Python. -/
def str_lower (s : String) : String :=
  String.mk (s.data.map Char.toLower)

/-- Digit-string to number: none on the empty string or any non-digit,
matching the ValueError of int(). -/
def digits_toNat (l : List Char) : Option Nat :=
  if l.isEmpty || l.any (fun c => !c.isDigit) then none
  else some (l.foldl (fun acc c => acc * 10 + (c.toNat - 48)) 0)

/-- Python int(s) on the forms the jitter strings take: an optional minus
sign followed by decimal digits; anything else raises ValueError,
embedded as none. -/
def py_int (s : String) : Option Int :=
  match s.data with
  | ('-') :: rest => (digits_toNat rest).map (fun n => -(n : Int))
  | l => (digits_toNat l).map (fun n => (n : Int))

/-- Python s.split(sep) for the single-character separator dash: the list of
chunks between dashes, never empty, with empty chunks preserved. -/
def split_dash : List Char → List (List Char)
  | [] => [[]]
  | c :: rest =>
    match split_dash rest with
    | [] => [[]]
    | h :: t => if c = ('-') then [] :: h :: t else (c :: h) :: t

/-- Parsing of args.jitter in main (lines 178-183): a string containing a
dash is split on the dash and both halves parsed as ints; otherwise the
window is (0, int(s)).  A split yielding anything but two parts fails the
tuple unpacking; none encodes those exceptions. -/
def parse_jitter (s : String) : Option (Int × Int) :=
  if s.data.contains ('-') then
    match split_dash s.data with
    | [a, b] =>
      match py_int (String.mk a), py_int (String.mk b) with
      | some x, some y => some (x, y)
      | _, _ => none
    | _ => none
  else
    match py_int s with
    | some y => some (0, y)
    | none => none

/-! ## Timing model for a batch: start_threadpool (lines 110-141)

All jobs are taken to start at time 0: jitter disabled and pool capacity
args.threads + 1 at least the target count, as in the spec's scenario of
three targets.  asyncio.wait_for stops waiting on a job at
min(runtime, timeout), so asyncio.gather returns at the maximum of those;
but the worker thread itself cannot be preempted and runs to its natural
runtime, and the final pool.shutdown(wait=True) blocks until every worker
has finished. -/

/-- Outcome recorded for a job of natural runtime r under timeout T, read
off the completed run_protocol call (no jitter, no cancellation). -/
def job_outcome (T r : Nat) : JobResult :=
  (run_protocol none 0 CancelPoint.never r T).result

/-- Time at which asyncio.gather over the batch returns: each per-job wait
ends at min(runtime, timeout). -/
def gather_time (T : Nat) (rs : List Nat) : Nat :=
  (rs.map (fun r => min r T)).foldr max 0

/-- Time at which pool.shutdown(wait=True) returns: every submitted worker
runs to its natural completion. -/
def drain_time (rs : List Nat) : Nat :=
  rs.foldr max 0

/-- Time at which start_threadpool returns: the gather must finish and then
the finally block waits for the pool to drain. -/
def run_duration (T : Nat) (rs : List Nat) : Nat :=
  max (gather_time T rs) (drain_time rs)

/-! ## Lifecycle trace: start_threadpool and main (lines 110-141, 299-308) -/

/-- Lifecycle side effects of one run, in the order they are performed. -/
inductive Event
  | serverStart
  | monitorStart
  | dispatch (i : Nat)
  | dbShutdown
  | monitorStop
  | poolDrain
  | serverStop
  | engineDispose
deriving DecidableEq, Repr

/-- How the awaited body of the run ended: asyncio.gather returned, a
CancelledError/KeyboardInterrupt cancelled the run, or an unexpected
exception escaped the gather. -/
inductive RunEnd
  | completed
  | cancelled
  | failed
deriving DecidableEq, Repr

/-- An exception still propagating after a handler ran. -/
inductive Exn
  | internal
deriving DecidableEq, Repr

/-- start_threadpool (lines 110-141): create the monitor task, build one
run_protocol job per target and gather them; `except asyncio.CancelledError`
swallows a cancellation; the finally block always runs, in source order,
await asyncio.shield(db.shutdown_db()), monitor_task.cancel(),
pool.shutdown(wait=True).  dispatched lists the jobs the gather actually
submitted before the run ended. -/
def start_threadpool_run (dispatched : List Nat) (e : RunEnd) : List Event × Option Exn :=
  let bodyEvents := Event.monitorStart :: dispatched.map Event.dispatch
  let teardown := [Event.dbShutdown, Event.monitorStop, Event.poolDrain]
  let exnAfter : Option Exn :=
    match e with
    | RunEnd.completed => none
    | RunEnd.cancelled => none
    | RunEnd.failed => some Exn.internal
  (bodyEvents ++ teardown, exnAfter)

/-- The run phase of main (lines 299-308): if a module server was started it
was started before asyncio.run; `except KeyboardInterrupt` swallows the
interrupt; the finally block stops the module server when one exists and
then disposes the engine. -/
def main_run (serverStarted : Bool) (dispatched : List Nat) (e : RunEnd) :
    List Event × Option Exn :=
  let inner := start_threadpool_run dispatched e
  let pre := if serverStarted then [Event.serverStart] else []
  let post := (if serverStarted then [Event.serverStop] else []) ++ [Event.engineDispose]
  let exnAfter : Option Exn :=
    match e with
    | RunEnd.cancelled => none
    | _ => inner.2
  (pre ++ inner.1 ++ post, exnAfter)

/-- The event trace of one whole run. -/
def main_trace (serverStarted : Bool) (dispatched : List Nat) (e : RunEnd) : List Event :=
  (main_run serverStarted dispatched e).1

/-! ## Module selection: main (lines 259-269) -/

/-- What main keeps of one get_modules entry: the path handed to
init_module.  Lookup uses only the display name. -/
structure ModuleProps where
  path : String
deriving DecidableEq, Repr

/-- The module-selection loop of main (lines 260-265): first listed module
whose lowercased name equals the lowercased request wins. -/
def find_module (req : String) (mods : List (String × ModuleProps)) : Option ModuleProps :=
  match mods with
  | [] => none
  | m :: rest => if str_lower req = str_lower m.1 then some m.2 else find_module req rest

/-- Result of the module-selection phase: a loaded module, or the process
exit code of the `if not module` branch (lines 267-269). -/
inductive ModulePhase
  | loaded (m : ModuleProps)
  | exitCode (c : Nat)
deriving DecidableEq, Repr

/-- Module selection as main performs it. -/
def module_phase (req : String) (mods : List (String × ModuleProps)) : ModulePhase :=
  match find_module req mods with
  | some p => ModulePhase.loaded p
  | none => ModulePhase.exitCode 1

/-- Jobs main dispatches given the module-selection result: exit(1) happens
before asyncio.run, so a failed lookup dispatches none. -/
def jobs_after_module_phase (req : String) (mods : List (String × ModuleProps))
    (targets : List String) : Nat :=
  match module_phase req mods with
  | ModulePhase.loaded _ => targets.length
  | ModulePhase.exitCode _ => 0

/-! ## Server decision and port selection: main (lines 168, 281-292) -/

/-- The attribute surface of a loaded module object as main consults it.
on_request and has_response record hasattr(module, ...); required_server is
the optional attribute that overrides args.server.  requiresServerFlag is
the declared requires_server capability flag of the spec's
ModuleDescriptor; the source never reads any attribute of that name. -/
structure ModuleHandle where
  opsec_safe : Bool
  multiple_hosts : Bool
  on_request : Bool
  has_response : Bool
  required_server : Option String
  requiresServerFlag : Bool
deriving DecidableEq, Repr

/-- The condition of line 281 under which main builds and starts a
CMEServer: the module has an on_request or a has_response attribute. -/
def server_started (m : ModuleHandle) : Bool :=
  m.on_request || m.has_response

/-- Modelled from the spec: the spec's start condition for the
CallbackServer, the module's declared requires_server flag (spec section
4.3); stated separately so it can be compared with the source condition
server_started. -/
def spec_server_started (m : ModuleHandle) : Bool :=
  m.requiresServerFlag

/-- server_port_dict of main line 168. -/
def server_port_dict : List (String × Nat) :=
  [("http", 80), ("https", 443), ("smb", 445)]

/-- Lookup in server_port_dict; none encodes the KeyError on an unknown
kind. -/
def lookup_port (kind : String) : Option Nat :=
  server_port_dict.lookup kind

/-- Port resolution of lines 286-287: `if not args.server_port` replaces the
port by the default for the server kind.  Python falsiness makes a supplied
port of 0 indistinguishable from an absent one. -/
def resolve_server_port (supplied : Option Nat) (kind : String) : Option Nat :=
  match supplied with
  | some p => if p = 0 then lookup_port kind else some p
  | none => lookup_port kind

/-! ## Progress monitor: monitor_threadpool (lines 63-76) -/

/-- Snapshot of the batch at the instant the operator presses enter: jobs
still in their jitter sleep (never submitted, hence never on the pool
queue), jobs sitting in pool._work_queue, jobs running on a worker thread,
and jobs whose entry point has finished. -/
structure PoolSnapshot where
  unsubmitted : Nat
  queued : Nat
  running : Nat
  completed : Nat
deriving DecidableEq, Repr

/-- len(targets): every target is one job. -/
def PoolSnapshot.total (s : PoolSnapshot) : Nat :=
  s.unsubmitted + s.queued + s.running + s.completed

/-- finished_threads of monitor_threadpool line 71:
len(targets) - pool._work_queue.qsize(). -/
def monitor_finished (s : PoolSnapshot) : Nat :=
  s.total - s.queued

/-- The percentage of line 72, Decimal(finished)/Decimal(total)*Decimal(100)
as an exact rational; the 28-significant-digit Decimal context is exact at
every magnitude used here. -/
def monitor_percentage (s : PoolSnapshot) : ℚ :=
  (monitor_finished s : ℚ) / (s.total : ℚ) * 100

/-- Rounding half-to-even to an integer, the mode Decimal formatting
applies. -/
def round_half_even (q : ℚ) : ℤ :=
  if q - Int.floor q < 1/2 then Int.floor q
  else if q - Int.floor q > 1/2 then Int.floor q + 1
  else if Int.floor q % 2 = 0 then Int.floor q else Int.floor q + 1

/-- The two-decimal figure the .2f format of line 73 prints. -/
def monitor_display (s : PoolSnapshot) : ℚ :=
  (round_half_even (monitor_percentage s * 100) : ℚ) / 100

/-- The monitor's reaction to one enter keypress: it prints a figure and
touches nothing, returning the snapshot unchanged. -/
def monitor_step (s : PoolSnapshot) : PoolSnapshot × ℚ :=
  (s, monitor_display s)

/-! ## Statements the claims assert, kept separate from the source model -/

/-- The teardown order the claim asserts for a run with a callback server:
monitor stopped first, then the persistence store, then the callback
server, then the pool drained. -/
def claimed_teardown_order (t : List Event) : Prop :=
  t.indexOf Event.monitorStop < t.indexOf Event.dbShutdown ∧
  t.indexOf Event.dbShutdown < t.indexOf Event.serverStop ∧
  t.indexOf Event.serverStop < t.indexOf Event.poolDrain

/-- A module that declares the spec's requires_server capability but
defines neither an on_request nor a has_response hook. -/
def hookless_module : ModuleHandle :=
  { opsec_safe := true
    multiple_hosts := true
    on_request := false
    has_response := false
    required_server := none
    requiresServerFlag := true }

/-- A batch of two jobs of which one has completed and one is running on a
worker thread, with nothing queued. -/
def half_done_snapshot : PoolSnapshot :=
  { unsubmitted := 0, queued := 0, running := 1, completed := 1 }

/-! ## Helper lemmas -/

lemma py_range_length (lo hi : Int) : (py_range lo hi).length = (hi - lo).toNat := by
  rw [py_range, List.length_map, List.length_range]

lemma py_range_nil (lo hi : Int) (h : hi ≤ lo) : py_range lo hi = [] := by
  have h0 : (hi - lo).toNat = 0 := by omega
  rw [py_range, h0]
  rfl

lemma random_choice_py_range (lo hi : Int) (seed : Nat) (h : lo < hi) :
    ∃ v, random_choice (py_range lo hi) seed = some v ∧ lo ≤ v ∧ v < hi := by
  have hn : 0 < (hi - lo).toNat := by omega
  have hidx : seed % (hi - lo).toNat < (hi - lo).toNat := Nat.mod_lt _ hn
  refine ⟨lo + (seed % (hi - lo).toNat : Nat), ?_, by omega, by omega⟩
  rw [random_choice, py_range_length, py_range, List.get?_eq_getElem?, List.getElem?_map,
    List.getElem?_range hidx]
  rfl

lemma random_choice_nil (seed : Nat) : random_choice [] seed = none := by
  rw [random_choice]
  rfl

lemma not_mem_dispatch_map (ev : Event) (d : List Nat) (h : ∀ i, ev ≠ Event.dispatch i) :
    ev ∉ d.map Event.dispatch := by
  intro hmem
  rcases List.mem_map.mp hmem with ⟨i, _, hi⟩
  exact h i hi.symm

lemma count_dispatch_map (ev : Event) (d : List Nat) (h : ∀ i, ev ≠ Event.dispatch i) :
    (d.map Event.dispatch).count ev = 0 :=
  List.count_eq_zero.mpr (not_mem_dispatch_map ev d h)

lemma main_trace_eq (s : Bool) (d : List Nat) (e : RunEnd) :
    main_trace s d e =
      ((if s then [Event.serverStart] else []) ++ (Event.monitorStart :: d.map Event.dispatch))
        ++ ([Event.dbShutdown, Event.monitorStop, Event.poolDrain]
          ++ ((if s then [Event.serverStop] else []) ++ [Event.engineDispose])) := by
  cases s <;> simp [main_trace, main_run, start_threadpool_run]

lemma teardown_not_mem_front (ev : Event) (s : Bool) (d : List Nat)
    (hds : ev ≠ Event.serverStart) (hms : ev ≠ Event.monitorStart)
    (hd : ∀ i, ev ≠ Event.dispatch i) :
    ev ∉ ((if s then [Event.serverStart] else [])
        ++ (Event.monitorStart :: d.map Event.dispatch)) := by
  cases s <;> simp [not_mem_dispatch_map ev d hd, hds, hms]

lemma le_foldr_max (r : Nat) (rs : List Nat) (h : r ∈ rs) : r ≤ rs.foldr max 0 := by
  induction rs with
  | nil => cases h
  | cons a l ih =>
    rcases List.mem_cons.mp h with h1 | h2
    · subst h1
      exact Nat.le_max_left _ _
    · exact le_trans (ih h2) (Nat.le_max_right _ _)

lemma foldr_max_le (rs : List Nat) (T : Nat) (h : ∀ x ∈ rs, x ≤ T) : rs.foldr max 0 ≤ T := by
  induction rs with
  | nil => exact Nat.zero_le T
  | cons a l ih =>
    have ha : a ≤ T := h a (List.mem_cons_self a l)
    have hl : l.foldr max 0 ≤ T := ih (fun x hx => h x (List.mem_cons_of_mem a hx))
    simpa using Nat.max_le.mpr ⟨ha, hl⟩

lemma find_module_congr (r1 r2 : String) (mods : List (String × ModuleProps))
    (h : str_lower r1 = str_lower r2) : find_module r1 mods = find_module r2 mods := by
  induction mods with
  | nil => rfl
  | cons m rest ih => simp [find_module, h, ih]

lemma find_module_none (req : String) (mods : List (String × ModuleProps))
    (h : ∀ p ∈ mods, str_lower req ≠ str_lower p.1) : find_module req mods = none := by
  induction mods with
  | nil => rfl
  | cons m rest ih =>
    have hm : str_lower req ≠ str_lower m.1 := h m (List.mem_cons_self m rest)
    have hr : ∀ p ∈ rest, str_lower req ≠ str_lower p.1 :=
      fun p hp => h p (List.mem_cons_of_mem m hp)
    simp [find_module, hm, ih hr]

/-! ## C1: teardown order -/

/-- C1 counterexample: the claim fixes the teardown order as monitor stop,
then persistence-store shutdown, then callback-server stop, then pool
drain; on a completed run with a server the trace of the source refutes
every part of that order. -/
theorem teardown_claimed_order_refuted :
    ¬ claimed_teardown_order (main_trace true [0] RunEnd.completed) := by
  simp only [claimed_teardown_order]
  decide

/-- C1 amended: teardown executes exactly once per run, but in the order of
the source's finally blocks: persistence-store shutdown, then monitor stop,
then pool drain, and last — outside start_threadpool, in main — the
callback-server stop when one was started; this order is the same whether
the run completed, was cancelled, or failed. -/
theorem teardown_exactly_once_in_code_order (s : Bool) (d : List Nat) (e : RunEnd) :
    (main_trace s d e).count Event.dbShutdown = 1 ∧
    (main_trace s d e).count Event.monitorStop = 1 ∧
    (main_trace s d e).count Event.poolDrain = 1 ∧
    (main_trace s d e).count Event.serverStop = (if s then 1 else 0) ∧
    (main_trace s d e).indexOf Event.dbShutdown < (main_trace s d e).indexOf Event.monitorStop ∧
    (main_trace s d e).indexOf Event.monitorStop < (main_trace s d e).indexOf Event.poolDrain ∧
    (s = true →
      (main_trace s d e).indexOf Event.poolDrain < (main_trace s d e).indexOf Event.serverStop) := by
  rw [main_trace_eq]
  have hdb := teardown_not_mem_front Event.dbShutdown s d
    (by intro h; cases h) (by intro h; cases h) (by intro i h; cases h)
  have hms := teardown_not_mem_front Event.monitorStop s d
    (by intro h; cases h) (by intro h; cases h) (by intro i h; cases h)
  have hpd := teardown_not_mem_front Event.poolDrain s d
    (by intro h; cases h) (by intro h; cases h) (by intro i h; cases h)
  have hss := teardown_not_mem_front Event.serverStop s d
    (by intro h; cases h) (by intro h; cases h) (by intro i h; cases h)
  refine ⟨?_, ?_, ?_, ?_, ?_, ?_, ?_⟩
  · cases s <;>
      simp [List.count_append, List.count_cons,
        count_dispatch_map Event.dbShutdown d (by intro i h; cases h)]
  · cases s <;>
      simp [List.count_append, List.count_cons,
        count_dispatch_map Event.monitorStop d (by intro i h; cases h)]
  · cases s <;>
      simp [List.count_append, List.count_cons,
        count_dispatch_map Event.poolDrain d (by intro i h; cases h)]
  · cases s <;>
      simp [List.count_append, List.count_cons,
        count_dispatch_map Event.serverStop d (by intro i h; cases h)]
  · rw [List.indexOf_append_of_not_mem hdb, List.indexOf_append_of_not_mem hms]
    simp [List.indexOf_cons]
  · rw [List.indexOf_append_of_not_mem hms, List.indexOf_append_of_not_mem hpd]
    simp [List.indexOf_cons]
  · intro hs
    subst hs
    rw [List.indexOf_append_of_not_mem hpd, List.indexOf_append_of_not_mem hss]
    simp [List.indexOf_cons]

/-- C1 witness: the amended order facts at a concrete cancelled run with a
server and one dispatched job. -/
theorem teardown_exactly_once_in_code_order_witness :
    (main_trace true [0] RunEnd.cancelled).count Event.dbShutdown = 1 ∧
    (main_trace true [0] RunEnd.cancelled).count Event.monitorStop = 1 ∧
    (main_trace true [0] RunEnd.cancelled).count Event.poolDrain = 1 ∧
    (main_trace true [0] RunEnd.cancelled).count Event.serverStop = (if true then 1 else 0) ∧
    (main_trace true [0] RunEnd.cancelled).indexOf Event.dbShutdown
      < (main_trace true [0] RunEnd.cancelled).indexOf Event.monitorStop ∧
    (main_trace true [0] RunEnd.cancelled).indexOf Event.monitorStop
      < (main_trace true [0] RunEnd.cancelled).indexOf Event.poolDrain ∧
    (true = true →
      (main_trace true [0] RunEnd.cancelled).indexOf Event.poolDrain
        < (main_trace true [0] RunEnd.cancelled).indexOf Event.serverStop) :=
  teardown_exactly_once_in_code_order true [0] RunEnd.cancelled

/-! ## C2: timeout does not bound the run's return -/

/-- C2 counterexample: in the spec's own scenario — three targets, natural
runtimes 100, 1 and 1 seconds, timeout 1 — the run only returns at time
100, because the finally block of start_threadpool calls
pool.shutdown(wait=True) and a timed-out worker cannot be preempted; so
Run does wait for the slow worker to finish naturally, refuting the
claimed bounded overrun proportional to the timeout. -/
theorem run_duration_not_timeout_bounded :
    run_duration 1 [100, 1, 1] = 100 ∧ ¬ run_duration 1 [100, 1, 1] < 100 := by
  decide

/-- C2 amended: a job whose entry point outlives the timeout is recorded as
Timeout, and the awaiting side stops within the timeout (the gather over
the batch returns by time T); but the run as a whole only returns once the
pool drains, which waits at least the natural runtime of every job, the
slow one included. -/
theorem timeout_recorded_but_drain_waits (T r : Nat) (rs : List Nat) (hmem : r ∈ rs) :
    (T < r → job_outcome T r = JobResult.timeoutLogged) ∧
    gather_time T rs ≤ T ∧
    r ≤ run_duration T rs := by
  refine ⟨?_, ?_, ?_⟩
  · intro h
    simp [job_outcome, run_protocol, run_protocol_body, h]
  · refine foldr_max_le _ T ?_
    intro x hx
    rcases List.mem_map.mp hx with ⟨y, _, hy⟩
    omega
  · exact le_trans (le_foldr_max r rs hmem) (Nat.le_max_right _ _)

/-- C2 witness: the amended facts at the concrete scenario. -/
theorem timeout_recorded_but_drain_waits_witness :
    job_outcome 1 100 = JobResult.timeoutLogged ∧
    gather_time 1 [100, 1, 1] ≤ 1 ∧
    100 ≤ run_duration 1 [100, 1, 1] :=
  ⟨(timeout_recorded_but_drain_waits 1 100 [100, 1, 1] (by decide)).1 (by decide),
    (timeout_recorded_but_drain_waits 1 100 [100, 1, 1] (by decide)).2.1,
    (timeout_recorded_but_drain_waits 1 100 [100, 1, 1] (by decide)).2.2⟩

/-! ## C3: persistence-store shutdown exactly once -/

/-- C3: db.shutdown_db() is awaited (shielded) in the finally block of
start_threadpool, so exactly one dbShutdown event occurs in every run's
trace, whether the run completed, was cancelled, or failed, with or
without a callback server and for any dispatched set. -/
theorem db_shutdown_exactly_once (s : Bool) (d : List Nat) (e : RunEnd) :
    (main_trace s d e).count Event.dbShutdown = 1 := by
  rw [main_trace_eq]
  cases s <;>
    simp [List.count_append, List.count_cons,
      count_dispatch_map Event.dbShutdown d (by intro i h; cases h)]

/-! ## C4: callback-server start condition and lifecycle -/

/-- C4 counterexample: the source starts the server on attribute presence of
on_request or has_response, never reading a requires_server flag; a module
declaring the spec's requires_server capability but defining neither hook
gets no server, refuting the claimed if-and-only-if. -/
theorem server_start_condition_refuted :
    spec_server_started hookless_module = true ∧
    server_started hookless_module = false ∧
    server_started hookless_module ≠ spec_server_started hookless_module := by
  decide

/-- C4 amended: the CallbackServer is started if and only if the loaded
module defines an on_request or a has_response hook; when started, the
start is the first lifecycle action of the run — before any job dispatch —
and the stop happens exactly once per run. -/
theorem server_lifecycle (m : ModuleHandle) (d : List Nat) (e : RunEnd) :
    (server_started m = true ↔ (m.on_request = true ∨ m.has_response = true)) ∧
    (main_trace (server_started m) d e).count Event.serverStart
      = (if server_started m then 1 else 0) ∧
    (main_trace (server_started m) d e).count Event.serverStop
      = (if server_started m then 1 else 0) ∧
    (server_started m = true →
      ∃ rest, main_trace (server_started m) d e = Event.serverStart :: rest) := by
  refine ⟨?_, ?_, ?_, ?_⟩
  · simp [server_started]
  · rw [main_trace_eq]
    cases hs : server_started m <;>
      simp [List.count_append, List.count_cons,
        count_dispatch_map Event.serverStart d (by intro i h; cases h)]
  · rw [main_trace_eq]
    cases hs : server_started m <;>
      simp [List.count_append, List.count_cons,
        count_dispatch_map Event.serverStop d (by intro i h; cases h)]
  · intro hs
    rw [main_trace_eq, hs]
    exact ⟨_, rfl⟩

/-- C4 witness: the amended facts at a concrete module defining on_request,
one dispatched job, completed run. -/
theorem server_lifecycle_witness :
    (server_started
        { opsec_safe := true, multiple_hosts := true, on_request := true,
          has_response := false, required_server := some ("http"),
          requiresServerFlag := true } = true ↔
      (ModuleHandle.on_request
          { opsec_safe := true, multiple_hosts := true, on_request := true,
            has_response := false, required_server := some ("http"),
            requiresServerFlag := true } = true ∨
        ModuleHandle.has_response
          { opsec_safe := true, multiple_hosts := true, on_request := true,
            has_response := false, required_server := some ("http"),
            requiresServerFlag := true } = true)) ∧
    (main_trace
        (server_started
          { opsec_safe := true, multiple_hosts := true, on_request := true,
            has_response := false, required_server := some ("http"),
            requiresServerFlag := true }) [0] RunEnd.completed).count Event.serverStart
      = (if server_started
            { opsec_safe := true, multiple_hosts := true, on_request := true,
              has_response := false, required_server := some ("http"),
              requiresServerFlag := true } then 1 else 0) ∧
    (main_trace
        (server_started
          { opsec_safe := true, multiple_hosts := true, on_request := true,
            has_response := false, required_server := some ("http"),
            requiresServerFlag := true }) [0] RunEnd.completed).count Event.serverStop
      = (if server_started
            { opsec_safe := true, multiple_hosts := true, on_request := true,
              has_response := false, required_server := some ("http"),
              requiresServerFlag := true } then 1 else 0) ∧
    (server_started
        { opsec_safe := true, multiple_hosts := true, on_request := true,
          has_response := false, required_server := some ("http"),
          requiresServerFlag := true } = true →
      ∃ rest,
        main_trace
          (server_started
            { opsec_safe := true, multiple_hosts := true, on_request := true,
              has_response := false, required_server := some ("http"),
              requiresServerFlag := true }) [0] RunEnd.completed
          = Event.serverStart :: rest) :=
  server_lifecycle
    { opsec_safe := true, multiple_hosts := true, on_request := true,
      has_response := false, required_server := some ("http"),
      requiresServerFlag := true } [0] RunEnd.completed

/-! ## C5: jitter delay lies in the half-open window -/

/-- C5: with a configured window (lo, hi), the delay run_protocol sleeps
before dispatching is random.choice(range(lo, hi)), an integer of [lo, hi)
whatever the random source yields — the draw is evaluated independently
inside each per-job run_protocol call, here abstracted by the per-job
seed — and with jitter disabled no sleep happens at all, a delay of 0. -/
theorem jitter_delay_window (lo hi : Int) (seed : Nat) :
    (lo < hi → ∃ v, jitter_delay (some (lo, hi)) seed = some v ∧ lo ≤ v ∧ v < hi) ∧
    jitter_delay none seed = some 0 := by
  constructor
  · intro h
    rcases random_choice_py_range lo hi seed h with ⟨v, hv, h1, h2⟩
    exact ⟨v, by simpa [jitter_delay] using hv, h1, h2⟩
  · rfl

/-- C5 witness: a concrete window and seed. -/
theorem jitter_delay_window_witness :
    (∃ v, jitter_delay (some (1, 3)) 5 = some v ∧ 1 ≤ v ∧ v < 3) ∧
    jitter_delay none 5 = some 0 :=
  ⟨(jitter_delay_window 1 3 5).1 (by norm_num), (jitter_delay_window 1 3 5).2⟩

/-! ## C6: callback-server port selection -/

/-- C6 counterexample: an explicitly supplied port of 0 is falsy to the
`if not args.server_port` test of line 286, so it is overridden by the
kind default, refuting that a supplied port is never overridden. -/
theorem explicit_port_zero_overridden :
    resolve_server_port (some 0) ("http") = some 80 ∧
    resolve_server_port (some 0) ("http") ≠ some 0 := by
  decide

/-- C6 amended: with no supplied port the default is chosen by server kind —
http 80, https 443, smb 445; a supplied nonzero port is never overridden,
but a supplied port of 0 is indistinguishable from an absent one and is
replaced by the kind default. -/
theorem server_port_selection (p : Nat) (kind : String) :
    resolve_server_port none ("http") = some 80 ∧
    resolve_server_port none ("https") = some 443 ∧
    resolve_server_port none ("smb") = some 445 ∧
    (p ≠ 0 → resolve_server_port (some p) kind = some p) ∧
    resolve_server_port (some 0) kind = resolve_server_port none kind := by
  refine ⟨by decide, by decide, by decide, ?_, ?_⟩
  · intro h
    simp [resolve_server_port, h]
  · simp [resolve_server_port]

/-- C6 witness: a nonzero explicit port on the http kind is kept. -/
theorem server_port_selection_witness :
    resolve_server_port none ("http") = some 80 ∧
    resolve_server_port none ("https") = some 443 ∧
    resolve_server_port none ("smb") = some 445 ∧
    resolve_server_port (some 8080) ("http") = some 8080 :=
  ⟨(server_port_selection 8080 ("http")).1,
    (server_port_selection 8080 ("http")).2.1,
    (server_port_selection 8080 ("http")).2.2.1,
    (server_port_selection 8080 ("http")).2.2.2.1 (by norm_num)⟩

/-! ## C7: case-insensitive module lookup, fatal when absent -/

/-- C7: module lookup compares lowercased names, so two requests with the
same lowercasing resolve identically; and a request matching no listed
module leaves the loop with module unset, so main logs an error and exits
with code 1 before asyncio.run, dispatching zero jobs. -/
theorem module_lookup_case_insensitive_fatal (req other : String)
    (mods : List (String × ModuleProps)) (targets : List String) :
    (str_lower req = str_lower other → find_module req mods = find_module other mods) ∧
    ((∀ p ∈ mods, str_lower req ≠ str_lower p.1) →
      module_phase req mods = ModulePhase.exitCode 1 ∧
      jobs_after_module_phase req mods targets = 0) := by
  constructor
  · exact find_module_congr req other mods
  · intro h
    have hn : find_module req mods = none := find_module_none req mods h
    constructor
    · simp [module_phase, hn]
    · simp [jobs_after_module_phase, module_phase, hn]

/-- C7 witness: requesting mimikatz in upper case finds the module listed as
Mimikatz; requesting foobar exits with code 1 and zero dispatched jobs. -/
theorem module_lookup_case_insensitive_fatal_witness :
    find_module ("MIMIKATZ") [(("Mimikatz"), ⟨("modules/mimikatz.py")⟩)]
      = find_module ("mimikatz") [(("Mimikatz"), ⟨("modules/mimikatz.py")⟩)] ∧
    find_module ("mimikatz") [(("Mimikatz"), ⟨("modules/mimikatz.py")⟩)]
      = some ⟨("modules/mimikatz.py")⟩ ∧
    module_phase ("foobar") [(("Mimikatz"), ⟨("modules/mimikatz.py")⟩)]
      = ModulePhase.exitCode 1 ∧
    jobs_after_module_phase ("foobar") [(("Mimikatz"), ⟨("modules/mimikatz.py")⟩)]
      [("10.0.0.1"), ("10.0.0.2")] = 0 :=
  ⟨(module_lookup_case_insensitive_fatal ("MIMIKATZ") ("mimikatz")
      [(("Mimikatz"), ⟨("modules/mimikatz.py")⟩)] [("10.0.0.1"), ("10.0.0.2")]).1 (by decide),
    by decide,
    ((module_lookup_case_insensitive_fatal ("foobar") ("foobar")
      [(("Mimikatz"), ⟨("modules/mimikatz.py")⟩)] [("10.0.0.1"), ("10.0.0.2")]).2
        (by decide)).1,
    ((module_lookup_case_insensitive_fatal ("foobar") ("foobar")
      [(("Mimikatz"), ⟨("modules/mimikatz.py")⟩)] [("10.0.0.1"), ("10.0.0.2")]).2
        (by decide)).2⟩

/-! ## C8: what the progress monitor reports -/

/-- C8 counterexample: with two jobs of which one has completed and one is
still running, the work queue is empty, so the monitor reports
(2 - 0)/2 × 100 = 100.00 even though completed jobs are 1 of 2, 50.00;
len(targets) - qsize() does not count completed jobs. -/
theorem monitor_overcounts_finished :
    monitor_finished half_done_snapshot = 2 ∧
    half_done_snapshot.completed = 1 ∧
    monitor_display half_done_snapshot = 100 ∧
    (half_done_snapshot.completed : ℚ) / (half_done_snapshot.total : ℚ) * 100 = 50 ∧
    monitor_display half_done_snapshot
      ≠ (half_done_snapshot.completed : ℚ) / (half_done_snapshot.total : ℚ) * 100 := by
  refine ⟨rfl, rfl, ?_, ?_, ?_⟩ <;>
    norm_num [monitor_display, monitor_percentage, monitor_finished, round_half_even,
      half_done_snapshot, PoolSnapshot.total]

/-- C8 amended: on each enter keypress the monitor reports
(total - queued)/total × 100 rounded to two decimals, where total - queued
counts every job no longer (or never) on the work queue — completed,
running, and still-unsubmitted jobs alike; that figure equals the
completed count exactly when no job is running or unsubmitted, and the
monitor returns the pool state unchanged. -/
theorem monitor_reports_dequeued (s : PoolSnapshot) :
    monitor_finished s = s.completed + s.running + s.unsubmitted ∧
    (s.running = 0 → s.unsubmitted = 0 → monitor_finished s = s.completed) ∧
    (monitor_step s).1 = s := by
  refine ⟨?_, ?_, rfl⟩
  · simp only [monitor_finished, PoolSnapshot.total]
    omega
  · intro h1 h2
    simp only [monitor_finished, PoolSnapshot.total, h1, h2]
    omega

/-- C8 witness: a drained pool with three completed jobs. -/
theorem monitor_reports_dequeued_witness :
    monitor_finished { unsubmitted := 0, queued := 0, running := 0, completed := 3 } = 3 ∧
    (monitor_step { unsubmitted := 0, queued := 0, running := 0, completed := 3 }).1
      = { unsubmitted := 0, queued := 0, running := 0, completed := 3 } :=
  ⟨(monitor_reports_dequeued
      { unsubmitted := 0, queued := 0, running := 0, completed := 3 }).2.1 rfl rfl,
    (monitor_reports_dequeued
      { unsubmitted := 0, queued := 0, running := 0, completed := 3 }).2.2⟩

/-! ## C9: cancellation during the jitter sleep hits an unbound local -/

/-- C9: a CancelledError delivered during the jitter sleep reaches the
cancellation handler before run_in_executor has bound the local `thread`,
so handling the cancellation evaluates thread.cancel() on an unbound local
and raises a NameError instead of recording the cancellation; the entry
point is never submitted. -/
theorem cancel_during_jitter_unbound_local (lo hi : Int) (seed rt T : Nat) (h : lo < hi) :
    run_protocol (some (lo, hi)) seed CancelPoint.duringJitter rt T
      = { result := JobResult.nameError, invoked := false } := by
  rcases random_choice_py_range lo hi seed h with ⟨v, hv, _, _⟩
  simp [run_protocol, hv, cancelled_handler]

/-- C9 witness: a concrete window, cancelled during the sleep. -/
theorem cancel_during_jitter_unbound_local_witness :
    run_protocol (some (0, 2)) 0 CancelPoint.duringJitter 5 30
      = { result := JobResult.nameError, invoked := false } :=
  cancel_during_jitter_unbound_local 0 2 0 5 30 (by norm_num)

/-! ## C10: an empty jitter window raises instead of sleeping -/

/-- C10: a single-value jitter argument of "0" parses to the window (0, 0),
which is a truthy tuple, so the draw is attempted: random.choice over the
empty range(lo, hi) with hi ≤ lo raises IndexError before any sleep, the
exception matches no except clause, and the protocol entry point is never
invoked for that job. -/
theorem empty_jitter_window_raises (lo hi : Int) (seed : Nat) (cancel : CancelPoint)
    (rt T : Nat) (h : hi ≤ lo) :
    run_protocol (some (lo, hi)) seed cancel rt T
      = { result := JobResult.indexError, invoked := false } ∧
    parse_jitter ("0") = some (0, 0) := by
  constructor
  · simp [run_protocol, py_range_nil lo hi h, random_choice_nil]
  · decide

/-- C10 witness: the window (0, 0) itself. -/
theorem empty_jitter_window_raises_witness :
    run_protocol (some (0, 0)) 7 CancelPoint.never 2 30
      = { result := JobResult.indexError, invoked := false } ∧
    parse_jitter ("0") = some (0, 0) :=
  empty_jitter_window_raises 0 0 7 CancelPoint.never 2 30 (by norm_num)

end CME
